import Mathlib

/-!
Shallow embedding of txmongo's connection-management core
(`txmongo/__init__.py`): the `_Connection` reconnecting factory
(handshake validation, host failover, readiness notification) and the
`ConnectionPool` round-robin multiplexer, together with theorems
settling the specification claims about them.

Conventions of the embedding:
* protocol instances (`MongoProtocol` objects) are identified by `Nat`
  handles; deferreds waiting in the `__notify_ready` queue are
  identified by `Nat` waiter ids;
* Python truthiness tests on optional strings/integers are modelled
  explicitly (`pyTruthy`, the nonzero test on `maxBsonObjectSize`);
* mutation of `self` becomes explicit state passing on
  `ConnectionState` / `PoolState`; callbacks attached to deferreds are
  returned as explicit action values.
-/

/-- A (host, port) address, as produced by URI parsing and by
normalization of `hosts` entries of an `ismaster` reply. -/
structure Addr where
  host : String
  port : Nat
deriving DecidableEq, Repr

/-- State of one `_Connection` factory (one pool slot).  Field names
follow the Python attributes: `index` is `__index`, `discovered` is
`__discovered`, `notify_ready` is `__notify_ready` (the FIFO of queued
waiter deferreds), `instance_` is `instance` (the current ready
protocol, `none` when not ready), `hasConnector` records whether
`self.connector` is set, `conf_loop_running` whether the periodic
configure `LoopingCall` is running, and `delay` is the reconnect
backoff delay of the `ReconnectingClientFactory` base. -/
structure ConnectionState where
  index : Int
  discovered : List Addr
  notify_ready : List Nat
  instance_ : Option Nat
  connected : Bool
  reconnected : Bool
  slave_ok : Bool
  use_discovered : Bool
  continueTrying : Bool
  hasConnector : Bool
  nodelist : List Addr
  expected_set_name : Option String
  delay : Nat
  conf_loop_running : Bool
deriving DecidableEq, Repr

/-- `maxDelay = 60` (class attribute of `_Connection`). -/
def maxDelay : Nat := 60

/-- The base reconnect delay of the reconnecting factory
(`initialDelay` of the external base class). -/
def initialDelay : Nat := 1

/-- Modelled from the spec: the reconnect delay "escalates
geometrically up to a configured ceiling" (`maxDelay = 60` in the
source).  The external reconnecting-factory base class that owns the
exact factor and jitter is not part of this repository, so a factor of
2 stands in for the geometric escalation; no claim depends on the
factor's value. -/
def nextDelay (d : Nat) : Nat := min (d * 2) maxDelay

/-- `_Connection.__init__(pool, uri)` together with the class-level
attribute defaults: `__index = -1`, `__discovered = []`,
`__notify_ready = []`, `instance = None`, `__use_discovered = False`,
`connected = False`, `__reconnected = False`; `continueTrying` starts
true in the reconnecting base; the configure loop is started; the
connector is attached later by the pool. -/
def initConnection (nodelist : List Addr) (slave_ok : Bool)
    (expected_set_name : Option String) : ConnectionState :=
  { index := -1
    discovered := []
    notify_ready := []
    instance_ := none
    connected := false
    reconnected := false
    slave_ok := slave_ok
    use_discovered := false
    continueTrying := true
    hasConnector := false
    nodelist := nodelist
    expected_set_name := expected_set_name
    delay := initialDelay
    conf_loop_running := true }

/-- Python truthiness of an optional string: `None` and `''` are
falsy, every other string truthy. -/
def pyTruthy : Option String → Bool
  | none => false
  | some s => s ≠ ""

/-- Python indexing `l[i]`: negative indices count from the end,
out-of-range raises (`none`). -/
def pyIndex (l : List Addr) (i : Int) : Option Addr :=
  let j : Int := if i < 0 then (l.length : Int) + i else i
  if 0 ≤ j ∧ j < (l.length : Int) then l.get? j.toNat else none

/-- The candidate list iterated by `retryNextHost`:
`allNodes = list(self.uri['nodelist'])`, extended by
`self.__discovered` when `__use_discovered` is set.  Note the
discovered hosts are appended after the configured nodelist, they do
not replace it. -/
def allNodes (s : ConnectionState) : List Addr :=
  s.nodelist ++ (if s.use_discovered then s.discovered else [])

/-- How a queued waiter deferred is resolved. -/
inductive Outcome where
  /-- `df.callback(self)`: fired with the `_Connection` factory object
  itself (not with the protocol instance). -/
  | withSlot
  /-- fired directly with a protocol instance handle (this is what
  `notifyReady` does on its immediate path, but never what
  `setInstance` delivers to a queued waiter). -/
  | withInstance (h : Nat)
  /-- `df.errback(reason)`. -/
  | rejected (reason : Option String)
deriving DecidableEq, Repr

/-- Output of `_Connection.setInstance`: the new state, the old
instance on which `connectionLost` was forced (released), and the
resolution delivered to each formerly queued waiter, in queue order. -/
structure SetInstanceOut where
  state : ConnectionState
  released : Option Nat
  resolutions : List (Nat × Outcome)
deriving DecidableEq, Repr

/-- `_Connection.setInstance(instance=None, reason=None)`: release a
differing previous instance, set `connected` when an instance is
given, install the instance, swap out the whole `__notify_ready`
queue, and fire each dequeued deferred — `callback(self)` when an
instance is present, `errback(reason)` otherwise. -/
def setInstance (s : ConnectionState) (inst : Option Nat)
    (reason : Option String) : SetInstanceOut :=
  let released : Option Nat :=
    match s.instance_ with
    | some old => if inst ≠ some old then some old else none
    | none => none
  let s1 := if inst.isSome then { s with connected := true } else s
  let s2 := { s1 with instance_ := inst }
  let deferreds := s2.notify_ready
  let s3 := { s2 with notify_ready := [] }
  { state := s3
    released := released
    resolutions := deferreds.map fun d =>
      (d, if inst.isSome then Outcome.withSlot else Outcome.rejected reason) }

/-- Result of a `notifyReady()` call. -/
inductive NotifyResult where
  /-- `defer.succeed(self.instance)`: an already-fired deferred
  carrying the current protocol instance. -/
  | immediate (h : Nat)
  /-- a fresh deferred appended to `__notify_ready`. -/
  | queued
deriving DecidableEq, Repr

/-- `_Connection.notifyReady()`: if an instance is present, succeed
immediately with it; otherwise append a fresh deferred (waiter id `w`)
to the `__notify_ready` FIFO. -/
def notifyReady (s : ConnectionState) (w : Nat) :
    ConnectionState × NotifyResult :=
  match s.instance_ with
  | some h => (s, NotifyResult.immediate h)
  | none => ({ s with notify_ready := s.notify_ready ++ [w] }, NotifyResult.queued)

/-- Result of a `retryNextHost()` call. -/
inductive RetryResult where
  /-- `continueTrying` was false: log and return without retrying. -/
  | abandoned
  /-- no connector to retry (`ValueError`). -/
  | noConnector
  /-- `allNodes[self.__index]` raised `IndexError`. -/
  | indexError
  /-- reconnect to `target`; `delay` is true exactly when the wrap
  branch was taken, in which case `self.retry(connector)` applies the
  current backoff delay, otherwise `connector.connect()` fires
  immediately. -/
  | reconnect (delay : Bool) (target : Addr)
deriving DecidableEq, Repr

/-- `_Connection.retryNextHost()` (with the implicit
`connector=self.connector`): advance `__index`; when it runs past the
end of `allNodes`, reset it to 0 and mark the reconnect delayed;
point the connector at `allNodes[__index]`, set `__reconnected`, and
either `retry` (delayed, escalating the backoff) or `connect`
immediately. -/
def retryNextHost (s : ConnectionState) : ConnectionState × RetryResult :=
  if ¬ s.continueTrying then (s, RetryResult.abandoned)
  else if ¬ s.hasConnector then (s, RetryResult.noConnector)
  else
    let ns := allNodes s
    let i0 := s.index + 1
    let wrapped : Bool := i0 ≥ (ns.length : Int)
    let i : Int := if wrapped then 0 else i0
    match pyIndex ns i with
    | none => ({ s with index := i }, RetryResult.indexError)
    | some target =>
        ({ s with
            index := i
            reconnected := true
            delay := if wrapped then nextDelay s.delay else s.delay },
         RetryResult.reconnect wrapped target)

/-- What `buildProtocol` schedules on the new protocol's
`connectionReady()` deferred. -/
inductive BPAction where
  /-- `slaveok` branch: `setInstance(instance=p)` on connect (plus the
  re-authentication sweep when `__reconnected` was set). -/
  | readyOnConnect (reauth : Bool)
  /-- handshake branch: `configure(p)` on connect. -/
  | configureOnConnect
deriving DecidableEq, Repr

/-- `_Connection.buildProtocol(addr)`: builds protocol `p`, calls
`self.resetDelay()` (resetting the reconnect backoff to its base
value), then schedules either the slave-ok ready path or the
`configure` handshake on `p.connectionReady()`. -/
def buildProtocol (s : ConnectionState) (p : Nat) :
    ConnectionState × BPAction :=
  let s1 := { s with delay := initialDelay }
  if s1.slave_ok then (s1, BPAction.readyOnConnect s1.reconnected)
  else (s1, BPAction.configureOnConnect)

/-- `_Connection.stopTrying()`: the external
`ReconnectingClientFactory.stopTrying` (cancels any pending retry
timer and clears `continueTrying`), then `self.__conf_loop.stop()`.
It does not touch `__notify_ready`. -/
def stopTrying (s : ConnectionState) : ConnectionState :=
  { s with continueTrying := false, conf_loop_running := false }

/-- `_Connection.clientConnectionLost` (and, identically for our
state, `clientConnectionFailed`): clear `connected`; when
`continueTrying`, store the connector and fail over via
`retryNextHost`, else do nothing further. -/
def clientConnectionLost (s : ConnectionState) :
    ConnectionState × Option RetryResult :=
  let s1 := { s with connected := false }
  if s1.continueTrying then
    let s2 := { s1 with hasConnector := true }
    let (s3, r) := retryNextHost s2
    (s3, some r)
  else (s1, none)

/-- Per-slot effect of `ConnectionPool.disconnect()`: the slot's
teardown state, the waiter resolutions delivered during teardown, and
whether the live transport was closed. -/
structure SlotTeardownOut where
  state : ConnectionState
  resolutions : List (Nat × Outcome)
  lostConnection : Bool
deriving DecidableEq, Repr

/-- The per-slot body of `ConnectionPool.disconnect()`:
`factory.stopTrying()`, `factory.stopFactory()` (a no-op hook of the
external base `Factory`), `loseConnection()` on the live transport
when `factory.instance` is set, and `factory.connector.disconnect()`.
Losing the connection later fires `clientConnectionLost`, where
`continueTrying` is already false.  None of these steps resolves or
rejects a queued `__notify_ready` deferred — in the source only
`setInstance` ever touches that queue, and teardown never calls it —
so `resolutions` is empty by construction. -/
def disconnectSlot (s : ConnectionState) : SlotTeardownOut :=
  let s1 := stopTrying s
  let lose := s1.instance_.isSome
  let s2 := if lose then (clientConnectionLost s1).1 else s1
  { state := s2, resolutions := [], lostConnection := lose }

/-! ### Handshake reply validation (`_configureCallback`) -/

/-- The decoded configuration document of an `ismaster` reply, with
the fields `_configureCallback` consumes.  `ok` and `ismaster` are
the truthiness of `config.get('ok')` / `config.get('ismaster')`;
absent optional fields are `none`. -/
structure ConfigDoc where
  ok : Bool
  code : Option Int
  err : Option String
  setName : Option String
  maxBsonObjectSize : Option Nat
  hosts : Option (List String)
  ismaster : Bool
deriving DecidableEq, Repr

/-- The errors `_configureCallback` hands to `proto.fail`. -/
inductive MongoError where
  /-- `pymongo.errors.OperationFailure(msg, code)` (`code = none` for
  the bare one-argument form). -/
  | operationFailure (msg : String) (code : Option Int)
  /-- `pymongo.errors.ConfigurationError(msg)`. -/
  | configurationError (msg : String)
  /-- `pymongo.errors.AutoReconnect(msg)`. -/
  | autoReconnect (msg : String)
deriving DecidableEq, Repr

/-- The `InvalidReply` condition:
`OperationFailure('Invalid document length.')`. -/
def invalidReplyErr : MongoError :=
  MongoError.operationFailure "Invalid document length." none

/-- The `CommandFailed` condition:
`OperationFailure(config.get('err', 'Unknown error'), config.get('code'))`. -/
def commandFailedErr (code : Option Int) (err : Option String) : MongoError :=
  MongoError.operationFailure (err.getD "Unknown error") code

/-- The `ReplicaSetMismatch` condition. -/
def replicaSetMismatchErr : MongoError :=
  MongoError.configurationError
    "Mongo instance does not match requested replicaSet."

/-- The `NotPrimary` condition: `AutoReconnect('not master')`. -/
def notPrimaryErr : MongoError :=
  MongoError.autoReconnect "not master"

/-- Splits a character list at the first `':'`, returning the parts
before and after it (`host.split(':', 1)` when a colon is present). -/
def splitFirstColon : List Char → Option (List Char × List Char)
  | [] => none
  | c :: rest =>
      if c = ':' then some ([], rest)
      else
        match splitFirstColon rest with
        | some (a, b) => some (c :: a, b)
        | none => none

/-- Numeric value of a digit string. -/
def digitsVal (cs : List Char) : Nat :=
  cs.foldl (fun acc c => acc * 10 + (c.toNat - 48)) 0

/-- Whether a character list is a nonempty run of decimal digits. -/
def isDigits (cs : List Char) : Bool :=
  ¬ cs.isEmpty ∧ cs.all Char.isDigit

/-- Python `int(s)` as it is applied to the port part of a
`host:port` entry: a nonempty digit string parses to its value, and
anything else raises (`none`).  (Other syntaxes `int` accepts, such
as signs or surrounding whitespace, cannot occur in a wire hostname
list and are out of scope.) -/
def pyInt (str : String) : Option Nat :=
  if isDigits str.toList then some (digitsVal str.toList) else none

/-- Normalization of one `hosts` entry (the loop body of
`_configureCallback`): an entry without a colon becomes
`(host, 27017)`; otherwise it is split at the first colon and the
remainder parsed as the port, raising (`none`) when that fails. -/
def normalizeHost (h : String) : Option Addr :=
  if h.toList.contains ':' then
    match splitFirstColon h.toList with
    | some (pre, post) =>
        match pyInt (String.mk post) with
        | some p => some { host := String.mk pre, port := p }
        | none => none
    | none => none
  else some { host := h, port := 27017 }

/-- Normalization of a whole `hosts` list, first failure raising. -/
def normalizeHosts : List String → Option (List Addr)
  | [] => some []
  | h :: rest =>
      match normalizeHost h, normalizeHosts rest with
      | some a, some tl => some (a :: tl)
      | _, _ => none

/-- How `_configureCallback` ends. -/
inductive CCResult where
  /-- `proto.fail(e)` was called and the callback returned. -/
  | failed (e : MongoError)
  /-- all checks passed and `setInstance(instance=proto)` ran. -/
  | ready
  /-- an unhandled exception escaped (only possible from `int()` on a
  malformed port while normalizing `hosts`). -/
  | raised
deriving DecidableEq, Repr

/-- Full outcome of `_configureCallback`: resulting factory state,
the value written to `proto.max_bson_size` (if any), the instance
released by `setInstance` and the waiter resolutions it fired, whether
the post-ready re-authentication sweep was scheduled, and the
result. -/
structure CCOut where
  state : ConnectionState
  maxBson : Option Nat
  released : Option Nat
  resolutions : List (Nat × Outcome)
  reauth : Bool
  result : CCResult
deriving DecidableEq, Repr

/-- The truthy value written to `proto.max_bson_size`
(`if max_bson_size:`), `none` when absent or zero. -/
def maxBsonStep (maxBsonObjectSize : Option Nat) : Option Nat :=
  match maxBsonObjectSize with
  | some n => if n ≠ 0 then some n else none
  | none => none

/-- The `hosts`-tracking step of `_configureCallback`: when `hosts` is
a nonempty list, replace `__discovered` by its normalization (raising,
`none`, when a port fails to parse); otherwise leave the state
unchanged. -/
def hostsStep (s : ConnectionState) (hosts : Option (List String)) :
    Option ConnectionState :=
  match hosts with
  | some hs =>
      if hs.isEmpty then some s
      else
        match normalizeHosts hs with
        | some addrs => some { s with discovered := addrs }
        | none => none
  | none => some s

/-- `_Connection._configureCallback(reply, proto)`, the handshake
reply validation: document-count check, `ok` check, replica-set name
check (`expected and (expected != set_name)` — a Python truthiness
test on the configured name), recording of a truthy
`maxBsonObjectSize`, replacement of `__discovered` by the normalized
nonempty `hosts` list, the `ismaster` check, and finally
`setInstance(instance=proto)` plus the reconnect re-authentication
hook. -/
def configureCallback (s : ConnectionState) (reply : List ConfigDoc)
    (proto : Nat) : CCOut :=
  match reply with
  | [config] =>
      if ¬ config.ok then
        { state := s, maxBson := none, released := none, resolutions := []
          reauth := false
          result := CCResult.failed (commandFailedErr config.code config.err) }
      else if pyTruthy s.expected_set_name ∧
          s.expected_set_name ≠ config.setName then
        { state := s, maxBson := none, released := none, resolutions := []
          reauth := false
          result := CCResult.failed replicaSetMismatchErr }
      else
        let maxBson := maxBsonStep config.maxBsonObjectSize
        match hostsStep s config.hosts with
        | none =>
            { state := s, maxBson := maxBson, released := none
              resolutions := [], reauth := false, result := CCResult.raised }
        | some s1 =>
            if ¬ s1.slave_ok ∧ ¬ config.ismaster then
              { state := s1, maxBson := maxBson, released := none
                resolutions := [], reauth := false
                result := CCResult.failed notPrimaryErr }
            else
              let out := setInstance s1 (some proto) none
              { state := out.state, maxBson := maxBson
                released := out.released, resolutions := out.resolutions
                reauth := s1.reconnected, result := CCResult.ready }
  | _ =>
      { state := s, maxBson := none, released := none, resolutions := []
        reauth := false, result := CCResult.failed invalidReplyErr }

/-- A slot freshly built for a single-node deployment
(`mongodb://127.0.0.1:27017`, no `slaveok`, no `setname`): the base
state for concrete evaluations. -/
def sampleSlot : ConnectionState :=
  initConnection [{ host := "127.0.0.1", port := 27017 }] false none

/-- A fresh two-candidate slot with its connector attached, as the
pool leaves it right after construction. -/
def twoNodeSlot : ConnectionState :=
  { initConnection
      [{ host := "h1", port := 27017 }, { host := "h2", port := 27017 }]
      false none with
    hasConnector := true }

/-- A discovery-enabled slot configured with the single node `h0`. -/
def discoverySlot : ConnectionState :=
  { initConnection [{ host := "h0", port := 27017 }] false none with
      use_discovered := true }

/-- A successful primary handshake reply advertising the single peer
`a:1111`. -/
def discoveryReply : ConfigDoc :=
  { ok := true, code := none, err := none, setName := none
    maxBsonObjectSize := none, hosts := some ["a:1111"], ismaster := true }

/-- The spec's end-to-end scenario slot: one configured node, expected
set name `rs0`, discovery enabled. -/
def rsSlot : ConnectionState :=
  { initConnection [{ host := "h0", port := 27017 }] false (some "rs0") with
      use_discovered := true }

/-- A successful primary handshake reply for set `rs0` advertising the
peers `h1:27017` and `h2:27017`. -/
def rsReply : ConfigDoc :=
  { ok := true, code := none, err := none, setName := some "rs0"
    maxBsonObjectSize := none, hosts := some ["h1:27017", "h2:27017"]
    ismaster := true }

/-! ### Connection pool (`ConnectionPool`) -/

/-- What one `ConnectionPool.getprotocol()` call hands back to the
caller. -/
inductive AcqResult where
  /-- `defer.succeed(connection.instance)`: the selected slot was
  ready, its instance is returned immediately. -/
  | immediate (h : Nat)
  /-- `connection.notifyReady().addCallback(lambda c: c.instance)`:
  the caller waits on the selected slot's readiness future; there is
  no fallback to any other slot. -/
  | waitOn (slot : Nat)
deriving DecidableEq, Repr

/-- State of a `ConnectionPool` as `getprotocol` sees it: the
round-robin `__index` (class default 0) and, per slot of `__pool`, the
slot's current `instance` handle.  `__pool_size` always equals the
length of `__pool`. -/
structure PoolState where
  index : Nat
  pool : List (Option Nat)
deriving DecidableEq, Repr

/-- `ConnectionPool.getprotocol()`: select `__pool[__index]` (raising
`IndexError`, `none`, when out of range), advance `__index` modulo
`__pool_size`, and return the selected slot's instance immediately
when it is set, else that same slot's `notifyReady()` future.  The
returned `Nat` is the index of the selected slot. -/
def getprotocol (p : PoolState) : Option (PoolState × Nat × AcqResult) :=
  match p.pool.get? p.index with
  | none => none
  | some inst =>
      let p1 := { p with index := (p.index + 1) % p.pool.length }
      some (p1, p.index,
        match inst with
        | some h => AcqResult.immediate h
        | none => AcqResult.waitOn p.index)

/-- The slots selected by `n` consecutive `getprotocol()` calls, in
call order (stopping early only on `IndexError`). -/
def acquireSeq (p : PoolState) : Nat → List Nat
  | 0 => []
  | n + 1 =>
      match getprotocol p with
      | none => []
      | some (p1, i, _) => i :: acquireSeq p1 n

/-- The `(index, delayed)` visits produced by `n` consecutive
`retryNextHost()` calls, in call order (stopping early when a call
does not reach a reconnect). -/
def retrySeq (s : ConnectionState) : Nat → List (Int × Bool)
  | 0 => []
  | n + 1 =>
      let (s1, r) := retryNextHost s
      match r with
      | RetryResult.reconnect d _ => (s1.index, d) :: retrySeq s1 n
      | _ => []

/-- The targets of the initial `reactor.connectTCP(host, port,
factory)` calls of `ConnectionPool.__init__`: `host, port` are taken
once from `nodelist[0]` (raising when the node list is empty) and
used for every factory of the pool. -/
def initialTargets (nodelist : List Addr) (pool_size : Nat) :
    Option (List Addr) :=
  match nodelist.get? 0 with
  | none => none
  | some a => some (List.replicate pool_size a)

/-- Modelled from the spec: `validate(reply)`, "executed in strict
order — first failing check aborts with the named condition and routes
to `fail`": (1) exactly one reply document else `InvalidReply`;
(2) `ok` true else `CommandFailed(errorCode, errorMessage)`;
(3) if `expectedSetName` set (the source's truthiness reading: absent
or empty counts as unset), `reply.setName` must match else
`ReplicaSetMismatch`; (4) record `maxDocumentSize` if present
(non-fatal); (5) if `peers` present, replace the discovered list with
the normalized (host, port) list; (6) if not `allowSecondary` and not
`isPrimary`, fail with `NotPrimary`, else proceed to `markReady`. -/
def specValidate (s : ConnectionState) (reply : List ConfigDoc)
    (proto : Nat) : CCOut :=
  match reply with
  | [config] =>
      if config.ok = false then
        { state := s, maxBson := none, released := none, resolutions := []
          reauth := false
          result := CCResult.failed (commandFailedErr config.code config.err) }
      else if pyTruthy s.expected_set_name = true ∧
          s.expected_set_name ≠ config.setName then
        { state := s, maxBson := none, released := none, resolutions := []
          reauth := false
          result := CCResult.failed replicaSetMismatchErr }
      else
        let recorded := maxBsonStep config.maxBsonObjectSize
        match hostsStep s config.hosts with
        | none =>
            { state := s, maxBson := recorded, released := none
              resolutions := [], reauth := false, result := CCResult.raised }
        | some s1 =>
            if s1.slave_ok = false ∧ config.ismaster = false then
              { state := s1, maxBson := recorded, released := none
                resolutions := [], reauth := false
                result := CCResult.failed notPrimaryErr }
            else
              let out := setInstance s1 (some proto) none
              { state := out.state, maxBson := recorded
                released := out.released, resolutions := out.resolutions
                reauth := s1.reconnected, result := CCResult.ready }
  | _ =>
      { state := s, maxBson := none, released := none, resolutions := []
        reauth := false, result := CCResult.failed invalidReplyErr }

/-! ## Theorems -/

/-! ### C1: teardown and the waiter queue -/

/-- C1: counterexample.  The claim says `stop()` (hence pool
`disconnect()`) rejects every queued waiter with `Aborted`, leaving
none pending.  On a slot with two queued waiters and a live instance,
teardown delivers no resolution at all and both waiters are still
queued afterwards. -/
theorem c1_counterexample :
    (disconnectSlot { sampleSlot with
        notify_ready := [0, 1]
        instance_ := some 5
        connected := true
        hasConnector := true }).resolutions = [] ∧
    (disconnectSlot { sampleSlot with
        notify_ready := [0, 1]
        instance_ := some 5
        connected := true
        hasConnector := true }).state.notify_ready = [0, 1] ∧
    ([0, 1] : List Nat) ≠ [] := by
  refine ⟨rfl, rfl, by decide⟩

/-- C1 (amended): `stop()` and the per-slot teardown of pool
`disconnect()` deliver no resolution (neither a value nor an error) to
any queued waiter, and leave the waiter queue exactly as it was: a
waiter still queued at teardown stays pending. -/
theorem c1_teardown_leaves_waiters_queued (s : ConnectionState) :
    (disconnectSlot s).resolutions = [] ∧
    (disconnectSlot s).state.notify_ready = s.notify_ready := by
  constructor
  · rfl
  · simp only [disconnectSlot, stopTrying, clientConnectionLost]
    split <;> rfl

/-! ### C2: markReady and the waiter queue -/

/-- C2: counterexample.  The claim says `markReady` resolves each
queued waiter with the new connection handle.  With one queued waiter
and new instance 7, `setInstance` fires the waiter with the factory
object itself (`df.callback(self)`), not with the instance handle. -/
theorem c2_counterexample :
    (setInstance { sampleSlot with notify_ready := [0] } (some 7)
        none).resolutions = [(0, Outcome.withSlot)] ∧
    Outcome.withSlot ≠ Outcome.withInstance 7 := by
  refine ⟨rfl, by decide⟩

/-- C2 (amended): `setInstance` with a new instance dequeues and fires
every currently queued waiter exactly once, in FIFO call order, each
with the factory object itself (whose `instance` field now holds the
new connection); the queue is left empty and the slot ready.  A
`notifyReady()` call made while an instance is present succeeds
immediately with that instance, without queuing. -/
theorem c2_markReady_fifo (s : ConnectionState) (h w : Nat) :
    ((setInstance s (some h) none).resolutions
        = s.notify_ready.map (fun d => (d, Outcome.withSlot)) ∧
      (setInstance s (some h) none).state.notify_ready = [] ∧
      (setInstance s (some h) none).state.instance_ = some h ∧
      (setInstance s (some h) none).state.connected = true) ∧
    (s.instance_ = some h → notifyReady s w = (s, NotifyResult.immediate h)) := by
  refine ⟨⟨rfl, rfl, rfl, rfl⟩, fun hs => ?_⟩
  unfold notifyReady
  rw [hs]

/-- C2: witness for the amended theorem at a ready slot with
instance 7 and waiter id 3. -/
theorem c2_markReady_fifo_witness :
    notifyReady { sampleSlot with instance_ := some 7 } 3
      = ({ sampleSlot with instance_ := some 7 }, NotifyResult.immediate 7) :=
  (c2_markReady_fifo { sampleSlot with instance_ := some 7 } 7 3).2 rfl

/-! ### C5: when the backoff delay is reset -/

/-- C5: counterexample.  The claim says the backoff is reset to base
exactly when a connection reaches `ready` (`markReady`) and not
earlier.  On a slot with escalated delay 42, `buildProtocol` (TCP
connect, before any handshake validation, instance still absent)
already resets the delay to base, while `setInstance` (markReady)
leaves the delay untouched at 42. -/
theorem c5_counterexample :
    (buildProtocol { sampleSlot with delay := 42 } 7).1.delay
      = initialDelay ∧
    (buildProtocol { sampleSlot with delay := 42 } 7).1.instance_ = none ∧
    (setInstance { sampleSlot with delay := 42 } (some 7) none).state.delay
      = 42 ∧
    (42 : Nat) ≠ initialDelay := by
  refine ⟨rfl, rfl, rfl, by decide⟩

/-- C5 (amended): the backoff delay is reset to its base value by
`buildProtocol`, i.e. as soon as a TCP connection is established and
before handshake validation; `setInstance` (markReady) never changes
the delay. -/
theorem c5_delay_reset_in_buildProtocol (s : ConnectionState) (p : Nat)
    (inst : Option Nat) (reason : Option String) :
    (buildProtocol s p).1.delay = initialDelay ∧
    (setInstance s inst reason).state.delay = s.delay := by
  constructor
  · simp only [buildProtocol]
    split <;> rfl
  · simp only [setInstance]
    cases inst <;> rfl

/-! ### C10: initial connection targets -/

/-- C10: at pool construction every slot's initial TCP attempt targets
the first node of the parsed node list, whatever the pool size and
however many candidate nodes the connection string lists; the pool
issues exactly `pool_size` such attempts, all to that first node. -/
theorem c10_initial_targets_first_node (nodelist tl : List Addr)
    (a : Addr) (pool_size : Nat) (hn : nodelist = a :: tl) :
    initialTargets nodelist pool_size = some (List.replicate pool_size a) ∧
    (List.replicate pool_size a).length = pool_size ∧
    ∀ t ∈ List.replicate pool_size a, t = a := by
  subst hn
  exact ⟨rfl, List.length_replicate _ _, fun t ht => List.eq_of_mem_replicate ht⟩

/-- C10: witness on a three-node list and a pool of size 2. -/
theorem c10_initial_targets_first_node_witness :
    initialTargets
        [{ host := "h1", port := 27017 }, { host := "h2", port := 27018 },
          { host := "h3", port := 27019 }] 2
      = some (List.replicate 2 { host := "h1", port := 27017 }) :=
  (c10_initial_targets_first_node _
      [{ host := "h2", port := 27018 }, { host := "h3", port := 27019 }]
      { host := "h1", port := 27017 } 2 rfl).1

/-! ### C3 and C8: retryNextHost cursor behaviour -/

/-- Python indexing at a nonnegative in-range index is plain list
lookup. -/
theorem pyIndex_nonneg (l : List Addr) (i : Int) (hge : 0 ≤ i)
    (hlt : i < (l.length : Int)) : pyIndex l i = l.get? i.toNat := by
  unfold pyIndex
  have h1 : ¬ i < 0 := by omega
  rw [if_neg h1, if_pos ⟨hge, hlt⟩]

/-- `retryNextHost` on a non-wrapping step: the cursor advances by
one, the target is the candidate at the new cursor, and the reconnect
is immediate (no backoff delay, `connector.connect()`). -/
theorem retryNextHost_advance (s : ConnectionState) (a : Addr)
    (hct : s.continueTrying = true) (hc : s.hasConnector = true)
    (hge : 0 ≤ s.index + 1)
    (hlt : s.index + 1 < ((allNodes s).length : Int))
    (hget : (allNodes s).get? (s.index + 1).toNat = some a) :
    retryNextHost s
      = ({ s with index := s.index + 1, reconnected := true },
         RetryResult.reconnect false a) := by
  have hw : decide (s.index + 1 ≥ ((allNodes s).length : Int)) = false :=
    decide_eq_false (by omega)
  simp only [retryNextHost, hct, hc, not_true, if_false, hw,
    Bool.false_eq_true, ite_false]
  rw [pyIndex_nonneg _ _ hge hlt, hget]

/-- `retryNextHost` on the wrapping step: the cursor resets to 0, the
target is the first candidate, and the reconnect is delayed
(`self.retry(connector)`), escalating the backoff. -/
theorem retryNextHost_wrap (s : ConnectionState) (a : Addr)
    (hct : s.continueTrying = true) (hc : s.hasConnector = true)
    (hge : ((allNodes s).length : Int) ≤ s.index + 1)
    (hlen : 1 ≤ (allNodes s).length)
    (hget : (allNodes s).get? 0 = some a) :
    retryNextHost s
      = ({ s with index := 0, reconnected := true, delay := nextDelay s.delay },
         RetryResult.reconnect true a) := by
  have hw : decide (s.index + 1 ≥ ((allNodes s).length : Int)) = true :=
    decide_eq_true (by omega)
  simp only [retryNextHost, hct, hc, not_true, if_false, hw, ite_true]
  rw [pyIndex_nonneg _ _ le_rfl (by omega), Int.toNat_zero, hget]

/-- `allNodes` ignores the fields a non-wrap `retryNextHost` step
updates. -/
theorem allNodes_advance_update (s : ConnectionState) (i : Int) :
    allNodes { s with index := i, reconnected := true } = allNodes s := rfl

/-- `allNodes` ignores the fields a wrapping `retryNextHost` step
updates. -/
theorem allNodes_wrap_update (s : ConnectionState) (i : Int) (d : Nat) :
    allNodes { s with index := i, reconnected := true, delay := d }
      = allNodes s := rfl

/-- One-step unfolding of `retrySeq` along a known reconnect step. -/
theorem retrySeq_succ_of_reconnect (s s1 : ConnectionState) (n : Nat)
    (d : Bool) (a : Addr)
    (h : retryNextHost s = (s1, RetryResult.reconnect d a)) :
    retrySeq s (n + 1) = (s1.index, d) :: retrySeq s1 n := by
  simp only [retrySeq, h]

/-- Candidate-cursor trajectory, generalized over the number `k` of
remaining non-wrap steps: from cursor `(N - k) - 1`, the next `k`
calls visit `N - k, …, N - 1` without delay and the call after that
wraps to 0 with delay. -/
theorem retrySeq_from (N : Nat) : ∀ (k : Nat) (s : ConnectionState),
    s.continueTrying = true → s.hasConnector = true →
    1 ≤ N → (allNodes s).length = N → k ≤ N →
    s.index = ((N - k : Nat) : Int) - 1 →
    retrySeq s (k + 1)
      = (List.range' (N - k) k).map (fun t => ((t : Int), false))
          ++ [((0 : Int), true)] := by
  intro k
  induction k with
  | zero =>
      intro s hct hc hN hlen hk hidx
      obtain ⟨a, hget⟩ : ∃ a, (allNodes s).get? 0 = some a := by
        cases hga : (allNodes s).get? 0 with
        | none => exact absurd (List.get?_eq_none.mp hga) (by omega)
        | some a => exact ⟨a, rfl⟩
      have hw := retryNextHost_wrap s a hct hc (by rw [hidx]; omega)
        (by omega) hget
      simp [retrySeq, hw]
  | succ k ih =>
      intro s hct hc hN hlen hk hidx
      have hj : (s.index + 1).toNat = N - (k + 1) := by omega
      have hlt : s.index + 1 < ((allNodes s).length : Int) := by
        rw [hlen]; omega
      obtain ⟨a, hget⟩ :
          ∃ a, (allNodes s).get? (s.index + 1).toNat = some a := by
        cases hga : (allNodes s).get? (s.index + 1).toNat with
        | none =>
            have := List.get?_eq_none.mp hga
            rw [hj, hlen] at this
            exact absurd this (by omega)
        | some a => exact ⟨a, rfl⟩
      have hadv := retryNextHost_advance s a hct hc (by omega) hlt hget
      have hrec := ih { s with index := s.index + 1, reconnected := true }
        hct hc hN hlen (by omega) (by simp; omega)
      rw [retrySeq_succ_of_reconnect s _ (k + 1) false a hadv, hrec]
      have hcons : List.range' (N - (k + 1)) (k + 1)
          = (N - (k + 1)) :: List.range' (N - k) k := by
        have h1 : N - (k + 1) + 1 = N - k := by omega
        rw [List.range'_succ, h1]
      rw [hcons]
      simp only [List.map_cons, List.cons_append]
      congr 1
      simp only [Prod.mk.injEq, and_true]
      omega

/-- C3: from a fresh slot (cursor −1), `N + 1` consecutive
`retryNextHost` calls on a candidate list of length `N` visit cursors
`0, …, N−1` in order, each reconnecting immediately (no delay), and
the `(N+1)`-th call wraps back to cursor 0 with the backoff delay
applied — the wrap is the only delayed transition. -/
theorem c3_retry_visits_candidates_in_order (s : ConnectionState) (N : Nat)
    (hct : s.continueTrying = true) (hc : s.hasConnector = true)
    (hN : 1 ≤ N) (hlen : (allNodes s).length = N) (hfresh : s.index = -1) :
    retrySeq s (N + 1)
      = (List.range N).map (fun t => ((t : Int), false))
          ++ [((0 : Int), true)] := by
  have h := retrySeq_from N N s hct hc hN hlen le_rfl
    (by rw [hfresh]; simp)
  rw [Nat.sub_self] at h
  rw [h, List.range_eq_range']

/-- C3: witness on a fresh two-candidate slot: visits cursor 0 then 1
immediately, then wraps to 0 with delay. -/
theorem c3_retry_visits_candidates_in_order_witness :
    retrySeq twoNodeSlot 3
      = (List.range 2).map (fun t => ((t : Int), false))
          ++ [((0 : Int), true)] :=
  c3_retry_visits_candidates_in_order twoNodeSlot 2 rfl rfl
    (by decide) rfl rfl

/-- C8: counterexample.  The claim says `0 ≤ cursor < len(candidates)`
at every point of the slot's lifecycle; but at construction the cursor
is −1 (the class default `__index = -1`), violating the lower bound. -/
theorem c8_counterexample :
    ¬ (0 ≤ (initConnection [{ host := "127.0.0.1", port := 27017 }]
        false none).index) := by
  decide

/-- C8 (amended): the cursor starts at −1 at construction; from any
state with cursor ≥ −1 and a nonempty candidate list, every
`retryNextHost` call (that is not abandoned for lack of a connector or
of `continueTrying`) re-establishes `0 ≤ cursor < len(candidates)`, so
the invariant holds from the first retry on. -/
theorem c8_cursor_in_range_after_retry (s : ConnectionState)
    (hct : s.continueTrying = true) (hc : s.hasConnector = true)
    (hidx : -1 ≤ s.index) (hlen : 1 ≤ (allNodes s).length) :
    0 ≤ ((retryNextHost s).1).index ∧
      ((retryNextHost s).1).index
        < ((allNodes ((retryNextHost s).1)).length : Int) := by
  by_cases hw : s.index + 1 ≥ ((allNodes s).length : Int)
  · obtain ⟨a, hget⟩ : ∃ a, (allNodes s).get? 0 = some a := by
      cases hga : (allNodes s).get? 0 with
      | none => exact absurd (List.get?_eq_none.mp hga) (by omega)
      | some a => exact ⟨a, rfl⟩
    rw [retryNextHost_wrap s a hct hc hw hlen hget]
    dsimp only
    rw [allNodes_wrap_update]
    exact ⟨le_refl 0, by omega⟩
  · have hlt : s.index + 1 < ((allNodes s).length : Int) := by omega
    obtain ⟨a, hget⟩ :
        ∃ a, (allNodes s).get? (s.index + 1).toNat = some a := by
      cases hga : (allNodes s).get? (s.index + 1).toNat with
      | none =>
          have := List.get?_eq_none.mp hga
          exact absurd this (by omega)
      | some a => exact ⟨a, rfl⟩
    rw [retryNextHost_advance s a hct hc (by omega) hlt hget]
    dsimp only
    rw [allNodes_advance_update]
    exact ⟨by omega, by omega⟩

/-- C8: witness for the amended invariant on a fresh two-candidate
slot with its connector attached. -/
theorem c8_cursor_in_range_after_retry_witness :
    0 ≤ ((retryNextHost twoNodeSlot).1).index ∧
      ((retryNextHost twoNodeSlot).1).index
        < ((allNodes ((retryNextHost twoNodeSlot).1)).length : Int) :=
  c8_cursor_in_range_after_retry twoNodeSlot rfl rfl (by decide) (by decide)

/-! ### C9: pool round robin -/

/-- One `getprotocol()` call, characterized: on a valid round-robin
index it selects the slot at `__index`, advances `__index` modulo the
pool size, and returns the slot's instance immediately when present,
else a wait on that same slot. -/
theorem getprotocol_step (p : PoolState) (inst : Option Nat)
    (hget : p.pool.get? p.index = some inst) :
    getprotocol p
      = some ({ p with index := (p.index + 1) % p.pool.length }, p.index,
          match inst with
          | some h => AcqResult.immediate h
          | none => AcqResult.waitOn p.index) := by
  cases inst <;> simp only [getprotocol, hget]

/-- One-step unfolding of `acquireSeq` along a known call. -/
theorem acquireSeq_succ (p p1 : PoolState) (n i : Nat) (r : AcqResult)
    (h : getprotocol p = some (p1, i, r)) :
    acquireSeq p (n + 1) = i :: acquireSeq p1 n := by
  simp only [acquireSeq, h]

/-- Round-robin trajectory: from index `i`, `k` consecutive calls
select slots `i, i+1, …, i+k-1` when they fit in the pool. -/
theorem acquireSeq_from (pool : List (Option Nat)) :
    ∀ (k i : Nat), i + k ≤ pool.length →
      acquireSeq ⟨i, pool⟩ k = List.range' i k := by
  intro k
  induction k with
  | zero => intro i _; rfl
  | succ k ih =>
      intro i hik
      obtain ⟨inst, hget⟩ : ∃ inst, pool.get? i = some inst := by
        cases hg : pool.get? i with
        | none => exact absurd (List.get?_eq_none.mp hg) (by omega)
        | some v => exact ⟨v, rfl⟩
      have hstep := getprotocol_step ⟨i, pool⟩ inst hget
      rw [acquireSeq_succ _ _ k i _ hstep, List.range'_succ]
      rcases Nat.eq_zero_or_pos k with hk0 | hkpos
      · subst hk0; rfl
      · have hmod : (i + 1) % pool.length = i + 1 :=
          Nat.mod_eq_of_lt (by omega)
        have := ih (i + 1) (by omega)
        simpa [hmod] using this

/-- C9: on a pool of `N` slots, `N` consecutive `getprotocol()` calls
starting from round-robin index 0 select each slot exactly once, in
slot order; each individual call advances the index modulo the slot
count and returns the selected slot's connection immediately when that
slot is ready, otherwise a wait on that same slot — never on another
slot. -/
theorem c9_round_robin_each_slot_once (pool : List (Option Nat)) (N : Nat)
    (hN : pool.length = N) (hpos : 1 ≤ N) :
    acquireSeq ⟨0, pool⟩ N = List.range N ∧
    (∀ (p : PoolState) (h : Nat),
      (p.pool.get? p.index = some (some h) →
        getprotocol p
          = some ({ p with index := (p.index + 1) % p.pool.length },
              p.index, AcqResult.immediate h)) ∧
      (p.pool.get? p.index = some none →
        getprotocol p
          = some ({ p with index := (p.index + 1) % p.pool.length },
              p.index, AcqResult.waitOn p.index))) := by
  refine ⟨?_, fun p h =>
    ⟨fun hg => getprotocol_step p (some h) hg,
     fun hg => getprotocol_step p none hg⟩⟩
  rw [List.range_eq_range']
  exact acquireSeq_from pool N 0 (by omega)

/-- C9: witness on a two-slot pool whose first slot is ready with
instance 5 and whose second is not ready. -/
theorem c9_round_robin_each_slot_once_witness :
    acquireSeq ⟨0, [some 5, none]⟩ 2 = List.range 2 ∧
    getprotocol ⟨0, [some 5, none]⟩
      = some (⟨1, [some 5, none]⟩, 0, AcqResult.immediate 5) := by
  have t := c9_round_robin_each_slot_once [some 5, none] 2 rfl (by decide)
  exact ⟨t.1, (t.2 ⟨0, [some 5, none]⟩ 5).1 rfl⟩

/-! ### C4: peer discovery and the candidate list -/

/-- C4: counterexample.  The claim says a successful handshake's
peers list replaces the candidate list wholesale, so that retry cycles
iterate over exactly the discovered hosts.  On a discovery-enabled
slot configured with node `h0` whose handshake discovers only
`a:1111`, the candidate list iterated by `retryNextHost` afterwards is
`[h0:27017, a:1111]` — the configured node followed by the discovered
one — not `[a:1111]`. -/
theorem c4_counterexample :
    (configureCallback discoverySlot [discoveryReply] 7).state.discovered
      = [{ host := "a", port := 1111 }] ∧
    allNodes (configureCallback discoverySlot [discoveryReply] 7).state
      = [{ host := "h0", port := 27017 }, { host := "a", port := 1111 }] ∧
    ([{ host := "h0", port := 27017 }, { host := "a", port := 1111 }] :
        List Addr)
      ≠ [{ host := "a", port := 1111 }] := by
  refine ⟨by decide, by decide, by decide⟩

/-- C4 (amended): a successful handshake whose reply carries a
nonempty peers list replaces the slot's previously *discovered* list
wholesale with the normalized (host, port) list; with discovery
enabled, subsequent `retryNextHost` cycles iterate over the configured
nodelist followed by the discovered hosts — not over the discovered
hosts alone. -/
theorem c4_discovery_appends_candidates (s : ConnectionState)
    (config : ConfigDoc) (hs : List String) (addrs : List Addr) (proto : Nat)
    (hok : config.ok = true)
    (hset : ¬ (pyTruthy s.expected_set_name = true ∧
        s.expected_set_name ≠ config.setName))
    (hhosts : config.hosts = some hs) (hne : hs.isEmpty = false)
    (hnorm : normalizeHosts hs = some addrs)
    (hsucc : s.slave_ok = true ∨ config.ismaster = true)
    (hud : s.use_discovered = true) :
    (configureCallback s [config] proto).state.discovered = addrs ∧
    allNodes (configureCallback s [config] proto).state
      = s.nodelist ++ addrs := by
  have h1 : hostsStep s config.hosts = some { s with discovered := addrs } := by
    rw [hhosts]
    simp only [hostsStep, hne, Bool.false_eq_true, if_false, hnorm]
  have hnp : ¬ (¬ ({ s with discovered := addrs } :
        ConnectionState).slave_ok = true ∧ ¬ config.ismaster = true) := by
    rcases hsucc with hso | him
    · simp [hso]
    · simp [him]
  simp only [configureCallback, hok, h1, not_true, Bool.false_eq_true,
    false_and, if_false, ite_false]
  rw [if_neg hset]
  rw [if_neg hnp]
  constructor
  · simp [setInstance]
  · simp [setInstance, allNodes, hud]

/-- C4: witness on the spec's end-to-end scenario: expected set name
`rs0`, a matching successful primary reply discovering `h1` and `h2` —
the discovered list is replaced and the candidate cycle becomes the
configured node followed by the discovered peers. -/
theorem c4_discovery_appends_candidates_witness :
    (configureCallback rsSlot [rsReply] 7).state.discovered
      = [{ host := "h1", port := 27017 }, { host := "h2", port := 27017 }] ∧
    allNodes (configureCallback rsSlot [rsReply] 7).state
      = rsSlot.nodelist
          ++ [{ host := "h1", port := 27017 }, { host := "h2", port := 27017 }] :=
  c4_discovery_appends_candidates rsSlot rsReply ["h1:27017", "h2:27017"]
    [{ host := "h1", port := 27017 }, { host := "h2", port := 27017 }] 7
    rfl (by decide) rfl rfl (by decide) (Or.inr rfl) rfl

/-! ### C6: handshake validation order -/

/-- C6: `_configureCallback` coincides, on every state and every
reply, with the spec's `validate(reply)` executed in its strict order:
document-count check (`InvalidReply`), `ok` check (`CommandFailed`
with code and message), expected-set-name check
(`ReplicaSetMismatch`), non-fatal `maxDocumentSize` recording, peers
normalization, then the primary check (`NotPrimary` when secondary
reads are disallowed); the first failing check aborts with its named
condition and routes to `fail`, and `markReady` (`setInstance`) is
reached exactly when no check fails. -/
theorem c6_validation_strict_order (s : ConnectionState)
    (reply : List ConfigDoc) (proto : Nat) :
    configureCallback s reply proto = specValidate s reply proto := by
  simp only [configureCallback, specValidate, Bool.not_eq_true]

/-! ### C7: hosts entry normalization -/

/-- A successful split at the first colon implies the colon occurs in
the list. -/
theorem colon_mem_of_splitFirstColon : ∀ (cs pre post : List Char),
    splitFirstColon cs = some (pre, post) → ':' ∈ cs := by
  intro cs
  induction cs with
  | nil =>
      intro pre post h
      simp [splitFirstColon] at h
  | cons c rest ih =>
      intro pre post h
      by_cases hc : c = ':'
      · subst hc
        exact List.mem_cons_self _ _
      · simp only [splitFirstColon, if_neg hc] at h
        cases hsp : splitFirstColon rest with
        | none =>
            rw [hsp] at h
            exact absurd h (by simp)
        | some pr =>
            exact List.mem_cons_of_mem _ (ih pr.1 pr.2 (by rw [hsp]))

/-- C7: normalization of `hosts` entries: an entry with no colon maps
to `(host, 27017)` — the port defaults to 27017; an entry
`host:port` with a digit port maps to the split host and parsed port;
and concretely `["a:1111", "b"]` normalizes to
`[("a", 1111), ("b", 27017)]`. -/
theorem c7_host_normalization (h : String) :
    (h.toList.contains ':' = false →
      normalizeHost h = some { host := h, port := 27017 }) ∧
    (∀ pre post, splitFirstColon h.toList = some (pre, post) →
      isDigits post = true →
      normalizeHost h
        = some { host := String.mk pre, port := digitsVal post }) ∧
    normalizeHosts ["a:1111", "b"]
      = some [{ host := "a", port := 1111 }, { host := "b", port := 27017 }] := by
  refine ⟨fun hnc => ?_, fun pre post hsp hd => ?_, by decide⟩
  · simp only [normalizeHost, hnc, Bool.false_eq_true, if_false]
  · have hc : h.toList.contains ':' = true :=
      List.elem_iff.mpr (colon_mem_of_splitFirstColon h.toList pre post hsp)
    simp only [normalizeHost, hc, if_true, hsp, pyInt]
    have hpost : (String.mk post).toList = post := rfl
    rw [hpost, hd]
    simp

/-- C7: witness at the two claimed entries: `"b"` (no port) and
`"a:1111"` (explicit port). -/
theorem c7_host_normalization_witness :
    normalizeHost "b" = some { host := "b", port := 27017 } ∧
    normalizeHost "a:1111" = some { host := "a", port := 1111 } := by
  constructor
  · exact (c7_host_normalization "b").1 (by decide)
  · exact (c7_host_normalization "a:1111").2.1 (String.toList "a")
      (String.toList "1111") (by decide) (by decide)
